import Mathlib

/-
Verification of the Meeting Minutes Generator repository.

The repository has three Python files:
  * `transcription+minutes.py` — FastAPI backend with `GET /`,
    `POST /transcribe` and `POST /generate-minutes`;
  * `transcription.py` — an earlier backend variant whose `/transcribe`
    handler is line-for-line identical to the one above in everything the
    claims touch (read, size check, provider call, empty-speech check,
    response shape);
  * `gradio_frontend.py` — the client pipeline `process_audio_to_minutes`
    with helpers `check_backend_health`, `get_file_size_mb`,
    `call_transcribe_api`, `call_generate_minutes_api`.

The shallow embedding below models the handlers as pure functions over
oracles for the external world (the Groq provider, the HTTP transport,
the filesystem).  Python exceptions become `Except`, HTTP error responses
become an explicit `HTTPError` value, and whether the provider was
consulted is returned as an explicit `Bool` alongside the result.
Byte counts are `Nat`; the megabyte arithmetic of the source
(`len(bytes) / (1024*1024)`, `round(x, 2)`) is carried out in `ℚ`
with Python's round-half-to-even tie rule made explicit.
-/

namespace MeetingMinutes

/-! ### Python string stripping

`str.strip()` with no argument removes leading and trailing whitespace.
We model the ASCII whitespace characters Python strips. -/

def isPySpace (c : Char) : Bool :=
  c = ' ' || c = '\t' || c = '\n' || c = '\r' || c = '\x0b' || c = '\x0c'

def pyStripL (l : List Char) : List Char :=
  ((l.dropWhile isPySpace).reverse.dropWhile isPySpace).reverse

def pyStrip (s : String) : String :=
  ⟨pyStripL s.toList⟩

/-- A character list with no leading and no trailing whitespace. -/
def noEdgeSpace (l : List Char) : Bool :=
  (match l.head? with
   | none => true
   | some c => !isPySpace c) &&
  (match l.getLast? with
   | none => true
   | some c => !isPySpace c)

/-! ### Python rounding

`round(x, 2)` rounds to two decimal places with ties going to the even
hundredth (Python's banker's rounding). -/

def roundHalfEven (q : ℚ) : ℤ :=
  let f : ℤ := ⌊q⌋
  let frac : ℚ := q - f
  if frac < 1/2 then f
  else if 1/2 < frac then f + 1
  else if f % 2 = 0 then f else f + 1

def round2 (q : ℚ) : ℚ :=
  (roundHalfEven (q * 100) : ℚ) / 100

/-- Decimal rendering of a size with two digits, modelling the
`f"{size_mb:.2f}"` format used in the backend's oversize message. -/
def fmt2 (q : ℚ) : String :=
  let c : ℤ := roundHalfEven (q * 100)
  let n : ℕ := c.toNat
  toString (n / 100) ++ "." ++ (if n % 100 < 10 then "0" else "") ++ toString (n % 100)

/-- Python `repr` of a float holding at most two decimals, as interpolated
by f-strings in the frontend (`30.0` prints as "30.0", `25.01` as "25.01"). -/
def pyFloatRepr2 (q : ℚ) : String :=
  let c : ℤ := roundHalfEven (q * 100)
  let n : ℕ := c.toNat
  let frac : ℕ := n % 100
  toString (n / 100) ++ "." ++
    (if frac % 10 = 0 then toString (frac / 10) else toString frac)

/-! ### Backend data model (Pydantic response models) -/

/-- Response model of a successful `/transcribe` call: exactly these four
fields (`transcription+minutes.py` lines 47–54). -/
structure TranscribeResponse where
  transcript : String
  file_size_mb : ℚ
  filename : String
  success : Bool
  deriving Repr, DecidableEq

/-- Response model of a successful `/generate-minutes` call
(`transcription+minutes.py` lines 62–67). -/
structure GenerateMinutesResponse where
  minutes : String
  success : Bool
  deriving Repr, DecidableEq

/-- A FastAPI `HTTPException`: status code plus human-readable detail. -/
structure HTTPError where
  status : Nat
  detail : String
  deriving Repr, DecidableEq

/-- Outcome of one call to the external Groq provider: the text it
returned, or the message of the exception it raised. -/
inductive ProviderResult where
  | ok (text : String)
  | exc (msg : String)
  deriving Repr, DecidableEq

/-- `MAX_FILE_SIZE_MB = 25` in both backend files. -/
def MAX_FILE_SIZE_MB : ℚ := 25

/-- `check_file_size` (`transcription+minutes.py` 130–144,
`transcription.py` 74–88): size in MB is the exact byte count divided by
1024*1024; the file is valid when that size is `≤ 25`. -/
def check_file_size (fileBytes : Nat) : Bool × ℚ :=
  let size_mb : ℚ := (fileBytes : ℚ) / (1024 * 1024)
  (decide (size_mb ≤ MAX_FILE_SIZE_MB), size_mb)

/-- `POST /transcribe` handler (`transcription+minutes.py` 169–259;
`transcription.py` 112–202 is identical in all modelled behaviour).
`readOutcome` is the result of `await file.read()` (byte count, or the
raised exception's message); `provider` is the oracle for the Groq
Whisper call.  The second component records whether the provider was
invoked. -/
def transcribe_audio (readOutcome : Except String Nat) (filename : String)
    (provider : ProviderResult) :
    Except HTTPError TranscribeResponse × Bool :=
  match readOutcome with
  | .error e =>
      (.error ⟨400, "Failed to read uploaded file: " ++ e⟩, false)
  | .ok fileBytes =>
      let checked := check_file_size fileBytes
      if !checked.1 then
        (.error ⟨400, "File too large (" ++ fmt2 checked.2 ++
          "MB). Maximum allowed is 25MB. Please upload a shorter recording or compress the audio."⟩,
         false)
      else
        match provider with
        | .exc m =>
            (.error ⟨500, "Transcription failed: " ++ m ++ ". Please try again."⟩, true)
        | .ok transcript_text =>
            if transcript_text = "" ∨ (pyStrip transcript_text).length = 0 then
              (.error ⟨400, "No speech detected in audio file. Please ensure the recording contains clear speech."⟩,
               true)
            else
              (.ok ⟨pyStrip transcript_text, round2 checked.2, filename, true⟩, true)

/-- `POST /generate-minutes` handler (`transcription+minutes.py` 261–349).
`provider` is the oracle for the Groq chat-completion call (the prompt
construction of lines 298–307 has no observable effect in this model).
The second component records whether the provider was invoked. -/
def generate_minutes (transcript : String) (provider : ProviderResult) :
    Except HTTPError GenerateMinutesResponse × Bool :=
  if transcript = "" ∨ (pyStrip transcript).length = 0 then
    (.error ⟨400, "Transcript cannot be empty. Please provide a valid transcript."⟩, false)
  else
    match provider with
    | .exc m =>
        (.error ⟨500, "Minutes generation failed: " ++ m ++ ". Please try again."⟩, true)
    | .ok minutes_text =>
        if minutes_text = "" ∨ (pyStrip minutes_text).length = 0 then
          (.error ⟨500, "LLM returned empty response. Please try again."⟩, true)
        else
          (.ok ⟨pyStrip minutes_text, true⟩, true)

/-! ### Frontend (gradio_frontend.py) -/

/-- `get_file_size_mb` (`gradio_frontend.py` 38–50): size in MB rounded to
two decimal places. -/
def get_file_size_mb (fileBytes : Nat) : ℚ :=
  round2 ((fileBytes : ℚ) / (1024 * 1024))

/-- What one `requests` call to a backend endpoint can come back as, seen
from the client: a 200 response with the parsed payload field, a non-200
response (with the JSON `detail` field, or `none` when the body is not
parseable JSON), a `ConnectionError`, a `Timeout`, or any other
exception. -/
inductive ApiOutcome where
  | ok (payload : String)
  | httpErr (status : Nat) (detail : Option String)
  | connErr
  | timeout
  | exc (msg : String)
  deriving Repr, DecidableEq

/-- `call_transcribe_api` (`gradio_frontend.py` 56–99).  The source returns
the pair `(transcript, None)` on success and `(None, error_message)` on
failure; we render that as `Except error transcript`. -/
def call_transcribe_api (o : ApiOutcome) : Except String String :=
  match o with
  | .ok t => .ok t
  | .httpErr s d =>
      .error ("Transcription failed: " ++ d.getD ("HTTP " ++ toString s))
  | .connErr => .error "❌ Cannot connect to backend. Is the server running on port 8001?"
  | .timeout => .error "❌ Request timed out. The audio file might be too long."
  | .exc m => .error ("❌ Error: " ++ m)

/-- `call_generate_minutes_api` (`gradio_frontend.py` 101–140). -/
def call_generate_minutes_api (o : ApiOutcome) : Except String String :=
  match o with
  | .ok m => .ok m
  | .httpErr s d =>
      .error ("Minutes generation failed: " ++ d.getD ("HTTP " ++ toString s))
  | .connErr => .error "❌ Cannot connect to backend. Is the server running on port 8001?"
  | .timeout => .error "❌ Request timed out. Please try again."
  | .exc m => .error ("❌ Error: " ++ m)

/-- The network requests the pipeline can issue, in order of emission:
the `GET /` health probe inside `check_backend_health`, the
`POST /transcribe` request, the `POST /generate-minutes` request. -/
inductive NetCall where
  | healthProbe
  | transcribeReq
  | minutesReq
  deriving Repr, DecidableEq

/-- Oracle for one run of the pipeline: everything the outside world
answers.  `audioPath` is the Gradio input (`""` models a missing file,
the falsy case of `if not audio_path`); `backendHealthy` is what
`check_backend_health` observes (the probe request itself is issued
either way); `fileInfo` is `os.path.getsize` + `os.path.basename`
(byte count and basename, or the exception raised); the two `ApiOutcome`
fields drive the two backend calls. -/
structure Env where
  audioPath : String
  backendHealthy : Bool
  fileInfo : Except String (Nat × String)
  transcribeOutcome : ApiOutcome
  minutesOutcome : ApiOutcome

/-- One pipeline run: the ordered `(status, minutes)` pairs the generator
produces (each `yield`, and the final `return` pair of an early exit),
and the network requests issued along the way. -/
structure PipelineRun where
  outputs : List (String × String)
  calls : List NetCall
  deriving Repr, DecidableEq

/-- `process_audio_to_minutes` (`gradio_frontend.py` 146–217), as a
function of the environment oracle.  Mirrors the source's control flow:
missing-file check, health check (which issues the probe), file info,
client-side size check on the rounded size, transcription call,
minutes call, final success status. -/
def process_audio_to_minutes (env : Env) : PipelineRun :=
  if env.audioPath = "" then
    ⟨[("❌ Please upload an audio file first.", "")], []⟩
  else if !env.backendHealthy then
    ⟨[("❌ Backend server is not running! Please start it with: python backend.py", "")],
     [.healthProbe]⟩
  else
    match env.fileInfo with
    | .error e =>
        ⟨[("❌ Error reading file: " ++ e, "")], [.healthProbe]⟩
    | .ok (fileBytes, filename) =>
        let file_size_mb := get_file_size_mb fileBytes
        if 25 < file_size_mb then
          ⟨[("❌ File too large (" ++ pyFloatRepr2 file_size_mb ++
              "MB). Maximum size is 25MB.", "")],
           [.healthProbe]⟩
        else
          let st1 := "🎙️ **Transcribing audio...** (" ++ pyFloatRepr2 file_size_mb ++
            "MB)\n\n*Think of your favourite song in the meanwhile 🎵*"
          match call_transcribe_api env.transcribeOutcome with
          | .error e =>
              ⟨[(st1, ""), ("❌ " ++ e, "")], [.healthProbe, .transcribeReq]⟩
          | .ok transcript =>
              let preview :=
                if 200 < transcript.length then transcript.take 200 ++ "..." else transcript
              let st2 := "✅ **Transcription complete!**\n\n📝 Preview: *" ++ preview ++ "*"
              let st3 := "📝 **Generating minutes...**\n\n*Think of your favourite TV Show in the meanwhile 📺*"
              match call_generate_minutes_api env.minutesOutcome with
              | .error e =>
                  ⟨[(st1, ""), (st2, ""), (st3, ""), ("❌ " ++ e, "")],
                   [.healthProbe, .transcribeReq, .minutesReq]⟩
              | .ok minutes =>
                  ⟨[(st1, ""), (st2, ""), (st3, ""),
                    ("✅ **All done!** Minutes generated successfully.\n\n📄 **File:** " ++
                      filename ++ " (" ++ pyFloatRepr2 file_size_mb ++ "MB)", minutes)],
                   [.healthProbe, .transcribeReq, .minutesReq]⟩

/-- `allMinutesEmpty r` says every `(status, minutes)` pair the run emitted
has an empty minutes component. -/
def allMinutesEmpty (r : PipelineRun) : Bool :=
  r.outputs.all fun p => p.2 == ""

/-! ### Helper lemmas -/

theorem head?_dropWhile_false {p : Char → Bool} :
    ∀ {l : List Char} {c : Char}, (l.dropWhile p).head? = some c → p c = false := by
  intro l
  induction l with
  | nil => intro c h; simp [List.dropWhile] at h
  | cons a t ih =>
      intro c h
      by_cases hp : p a
      · rw [List.dropWhile_cons_of_pos hp] at h
        exact ih h
      · rw [List.dropWhile_cons_of_neg hp] at h
        simp only [List.head?_cons, Option.some.injEq] at h
        subst h
        exact Bool.of_not_eq_true hp

theorem getLast?_dropWhile {p : Char → Bool} :
    ∀ {l : List Char}, l.dropWhile p ≠ [] → (l.dropWhile p).getLast? = l.getLast? := by
  intro l
  induction l with
  | nil => intro h; simp [List.dropWhile] at h
  | cons a t ih =>
      intro h
      by_cases hp : p a
      · rw [List.dropWhile_cons_of_pos hp] at h ⊢
        have ht : t ≠ [] := by
          intro he; rw [he] at h; simp [List.dropWhile] at h
        obtain ⟨b, t', rfl⟩ := List.exists_cons_of_ne_nil ht
        rw [ih h, List.getLast?_cons_cons]
      · rw [List.dropWhile_cons_of_neg hp]

theorem noEdgeSpace_pyStripL (l : List Char) : noEdgeSpace (pyStripL l) = true := by
  have hlast : ∀ c, (pyStripL l).getLast? = some c → isPySpace c = false := by
    intro c hc
    rw [pyStripL, List.getLast?_reverse] at hc
    exact head?_dropWhile_false hc
  have hhead : ∀ c, (pyStripL l).head? = some c → isPySpace c = false := by
    intro c hc
    rw [pyStripL, List.head?_reverse] at hc
    have hm : (l.dropWhile isPySpace).reverse.dropWhile isPySpace ≠ [] := by
      intro h; rw [h] at hc; simp at hc
    rw [getLast?_dropWhile hm, List.getLast?_reverse] at hc
    exact head?_dropWhile_false hc
  unfold noEdgeSpace
  rw [Bool.and_eq_true]
  constructor
  · cases hh : (pyStripL l).head? with
    | none => simp [hh]
    | some c => simp [hh, hhead c hh]
  · cases hl : (pyStripL l).getLast? with
    | none => simp [hl]
    | some c => simp [hl, hlast c hl]

theorem string_eq_empty_of_length {s : String} (h : s.length = 0) : s = "" := by
  obtain ⟨l⟩ := s
  cases l with
  | nil => rfl
  | cons a t => simp [String.length] at h

theorem pyStrip_toList (s : String) : (pyStrip s).toList = pyStripL s.toList := rfl

/-- The validation guard `not text or len(text.strip()) == 0` is false
exactly when the stripped text is nonempty. -/
theorem guard_false_of_strip_ne {s : String} (h : pyStrip s ≠ "") :
    ¬(s = "" ∨ (pyStrip s).length = 0) := by
  rintro (rfl | hlen)
  · exact h rfl
  · exact h (string_eq_empty_of_length hlen)

/-- The backend size check passes exactly on byte counts up to
`25 * 1024 * 1024 = 26214400`. -/
theorem check_file_size_fst_iff (n : ℕ) :
    (check_file_size n).1 = true ↔ n ≤ 26214400 := by
  simp only [check_file_size, MAX_FILE_SIZE_MB, decide_eq_true_eq]
  rw [div_le_iff₀ (by norm_num : (0:ℚ) < 1024 * 1024)]
  norm_num

theorem check_file_size_zero : (check_file_size 0).1 = true :=
  (check_file_size_fst_iff 0).mpr (by norm_num)

theorem check_file_size_oneMB : (check_file_size 1048576).1 = true :=
  (check_file_size_fst_iff 1048576).mpr (by norm_num)

theorem get_file_size_mb_1024 : ¬ (25 < get_file_size_mb 1024) := by
  norm_num [get_file_size_mb, round2, roundHalfEven]

theorem get_file_size_mb_30MB : 25 < get_file_size_mb 31457280 := by
  norm_num [get_file_size_mb, round2, roundHalfEven]

theorem get_file_size_mb_boundary : get_file_size_mb 26215424 = 25 := by
  norm_num [get_file_size_mb, round2, roundHalfEven]

/-! ### Claim theorems: backend endpoints -/

/-- C2: for every `POST /generate-minutes` request whose transcript is
empty or whitespace-only, the endpoint returns the 400 "Transcript cannot
be empty" error and the language-model provider is never called (second
component `false`). -/
theorem generate_minutes_rejects_empty_before_provider
    (t : String) (provider : ProviderResult) (h : pyStrip t = "") :
    generate_minutes t provider =
      (.error ⟨400, "Transcript cannot be empty. Please provide a valid transcript."⟩, false) := by
  unfold generate_minutes
  rw [if_pos (Or.inr (by rw [h]; rfl))]

/-- Witness for C2 at the whitespace-only transcript `"  \n "`. -/
theorem generate_minutes_rejects_empty_witness :
    generate_minutes "  \n " (.ok "x") =
      (.error ⟨400, "Transcript cannot be empty. Please provide a valid transcript."⟩, false) :=
  generate_minutes_rejects_empty_before_provider "  \n " (.ok "x") (by decide)

/-- C3: for every `POST /transcribe` request in which the provider result
is empty or whitespace-only, the endpoint returns the 400 "No speech
detected" error (not a success, not a 500). -/
theorem transcribe_no_speech_is_400
    (n : ℕ) (fn text : String) (hsize : (check_file_size n).1 = true)
    (hempty : pyStrip text = "") :
    (transcribe_audio (.ok n) fn (.ok text)).1 =
      .error ⟨400, "No speech detected in audio file. Please ensure the recording contains clear speech."⟩ := by
  unfold transcribe_audio
  simp only [hsize, Bool.not_true, Bool.false_eq_true, if_false]
  rw [if_pos (Or.inr (by rw [hempty]; rfl))]

/-- Witness for C3 at a whitespace-only provider result. -/
theorem transcribe_no_speech_witness :
    (transcribe_audio (.ok 0) "a.wav" (.ok " \t ")).1 =
      .error ⟨400, "No speech detected in audio file. Please ensure the recording contains clear speech."⟩ :=
  transcribe_no_speech_is_400 0 "a.wav" " \t " check_file_size_zero (by decide)

/-- C4: a provider exception makes `/transcribe` (resp.
`/generate-minutes`) return a 500 error whose detail is the exception
message surrounded by the endpoint's fixed text, hence contains it. -/
theorem provider_exception_maps_to_500 :
    (∀ (n : ℕ) (fn m : String), (check_file_size n).1 = true →
      (transcribe_audio (.ok n) fn (.exc m)).1 =
        .error ⟨500, "Transcription failed: " ++ m ++ ". Please try again."⟩) ∧
    (∀ (t m : String), pyStrip t ≠ "" →
      (generate_minutes t (.exc m)).1 =
        .error ⟨500, "Minutes generation failed: " ++ m ++ ". Please try again."⟩) := by
  constructor
  · intro n fn m hsize
    unfold transcribe_audio
    simp only [hsize, Bool.not_true, Bool.false_eq_true, if_false]
  · intro t m ht
    unfold generate_minutes
    rw [if_neg (guard_false_of_strip_ne ht)]

/-- Witness for C4: a provider exception "boom" at `/transcribe`. -/
theorem provider_exception_maps_to_500_witness :
    (transcribe_audio (.ok 0) "a.mp3" (.exc "boom")).1 =
      .error ⟨500, "Transcription failed: " ++ "boom" ++ ". Please try again."⟩ :=
  provider_exception_maps_to_500.1 0 "a.mp3" "boom" check_file_size_zero

/-- C6: every successful `/transcribe` response is exactly the four-field
record with the stripped provider text, the byte count divided by
1024*1024 rounded to two decimals, the uploaded filename, and
`success = true` (`TranscribeResponse` has exactly these fields). -/
theorem transcribe_success_response_shape
    (n : ℕ) (fn text : String) (hsize : (check_file_size n).1 = true)
    (htext : pyStrip text ≠ "") :
    transcribe_audio (.ok n) fn (.ok text) =
      (.ok ⟨pyStrip text, round2 ((n : ℚ) / (1024 * 1024)), fn, true⟩, true) := by
  unfold transcribe_audio
  simp only [hsize, Bool.not_true, Bool.false_eq_true, if_false]
  rw [if_neg (guard_false_of_strip_ne htext)]
  rfl

/-- Witness for C6 at a 1 MiB upload and provider text `" hello "`. -/
theorem transcribe_success_response_witness :
    transcribe_audio (.ok 1048576) "a.mp3" (.ok " hello ") =
      (.ok ⟨pyStrip " hello ", round2 ((1048576 : ℚ) / (1024 * 1024)), "a.mp3", true⟩, true) :=
  transcribe_success_response_shape 1048576 "a.mp3" " hello " check_file_size_oneMB (by decide)

/-- C8: the client error message for a timed-out backend request differs
from the one for a refused connection, for the transcription call and for
the minutes call alike. -/
theorem timeout_distinct_from_connection
    (e₁ e₂ f₁ f₂ : String)
    (h₁ : call_transcribe_api .timeout = .error e₁)
    (h₂ : call_transcribe_api .connErr = .error e₂)
    (h₃ : call_generate_minutes_api .timeout = .error f₁)
    (h₄ : call_generate_minutes_api .connErr = .error f₂) :
    e₁ ≠ e₂ ∧ f₁ ≠ f₂ := by
  unfold call_transcribe_api at h₁ h₂
  unfold call_generate_minutes_api at h₃ h₄
  injection h₁ with h₁
  injection h₂ with h₂
  injection h₃ with h₃
  injection h₄ with h₄
  subst h₁; subst h₂; subst h₃; subst h₄
  exact ⟨by decide, by decide⟩

/-- Witness for C8: the four concrete messages. -/
theorem timeout_distinct_witness :
    ("❌ Request timed out. The audio file might be too long." ≠
      "❌ Cannot connect to backend. Is the server running on port 8001?") ∧
    ("❌ Request timed out. Please try again." ≠
      "❌ Cannot connect to backend. Is the server running on port 8001?") :=
  timeout_distinct_from_connection _ _ _ _ rfl rfl rfl rfl

/-- C9: the two 25 MB checks disagree at the boundary: the backend accepts
exactly 25*1024*1024 bytes and rejects anything strictly larger, while the
client compares the two-decimal rounding, so at 25 MB + 1 KB the client
check passes and the backend then rejects. -/
theorem size_check_boundary_disagreement :
    (check_file_size (25 * 1024 * 1024)).1 = true ∧
    (∀ n : ℕ, 25 * 1024 * 1024 < n → (check_file_size n).1 = false) ∧
    ¬ (25 < get_file_size_mb (25 * 1024 * 1024 + 1024)) ∧
    (check_file_size (25 * 1024 * 1024 + 1024)).1 = false := by
  refine ⟨(check_file_size_fst_iff _).mpr (by norm_num), ?_, ?_, ?_⟩
  · intro n hn
    have h : ¬ ((check_file_size n).1 = true) := by
      rw [check_file_size_fst_iff]; omega
    exact Bool.eq_false_iff.mpr h
  · rw [show 25 * 1024 * 1024 + 1024 = 26215424 by norm_num, get_file_size_mb_boundary]
    norm_num
  · have h : ¬ ((check_file_size (25 * 1024 * 1024 + 1024)).1 = true) := by
      rw [check_file_size_fst_iff]; norm_num
    exact Bool.eq_false_iff.mpr h

/-- Witness for C9: one byte over the backend ceiling is rejected. -/
theorem size_check_boundary_witness :
    (check_file_size 26214401).1 = false :=
  size_check_boundary_disagreement.2.1 26214401 (by norm_num)

/-- C10: any 200 payload of either endpoint is nonempty and carries no
leading or trailing whitespace. -/
theorem success_payload_nonempty_stripped :
    (∀ (ro : Except String Nat) (fn : String) (prov : ProviderResult)
        (r : TranscribeResponse) (b : Bool),
        transcribe_audio ro fn prov = (.ok r, b) →
        r.transcript ≠ "" ∧ noEdgeSpace r.transcript.toList = true) ∧
    (∀ (t : String) (prov : ProviderResult) (r : GenerateMinutesResponse) (b : Bool),
        generate_minutes t prov = (.ok r, b) →
        r.minutes ≠ "" ∧ noEdgeSpace r.minutes.toList = true) := by
  constructor
  · intro ro fn prov r b h
    unfold transcribe_audio at h
    rcases ro with e | n
    · simp at h
    · rcases hck : (check_file_size n).1 with _ | _ <;> simp only [hck] at h
      · simp at h
      · rcases prov with text | m
        · simp only [Bool.not_true, Bool.false_eq_true, if_false] at h
          by_cases hg : (text = "" ∨ (pyStrip text).length = 0)
          · rw [if_pos hg] at h
            simp at h
          · rw [if_neg hg] at h
            simp only [Prod.mk.injEq, Except.ok.injEq] at h
            obtain ⟨hr, -⟩ := h
            subst hr
            show pyStrip text ≠ "" ∧ noEdgeSpace (pyStrip text).toList = true
            refine ⟨fun he => hg (Or.inr (by rw [he]; rfl)), ?_⟩
            rw [pyStrip_toList]
            exact noEdgeSpace_pyStripL _
        · simp at h
  · intro t prov r b h
    unfold generate_minutes at h
    by_cases hg : (t = "" ∨ (pyStrip t).length = 0)
    · rw [if_pos hg] at h
      simp at h
    · rw [if_neg hg] at h
      rcases prov with text | m
      · dsimp only at h
        by_cases hg2 : (text = "" ∨ (pyStrip text).length = 0)
        · rw [if_pos hg2] at h
          simp at h
        · rw [if_neg hg2] at h
          simp only [Prod.mk.injEq, Except.ok.injEq] at h
          obtain ⟨hr, -⟩ := h
          subst hr
          show pyStrip text ≠ "" ∧ noEdgeSpace (pyStrip text).toList = true
          refine ⟨fun he => hg2 (Or.inr (by rw [he]; rfl)), ?_⟩
          rw [pyStrip_toList]
          exact noEdgeSpace_pyStripL _
      · simp at h

/-- Concrete evaluation of `/transcribe` on an empty file and provider
text "hi", used to instantiate the success-payload theorem. -/
theorem transcribe_eval_concrete :
    transcribe_audio (.ok 0) "f" (.ok "hi") = (.ok ⟨"hi", 0, "f", true⟩, true) := by
  have h2 : round2 ((0 : ℚ) / (1024 * 1024)) = 0 := by
    norm_num [round2, roundHalfEven]
  unfold transcribe_audio
  simp only [check_file_size_zero, Bool.not_true, Bool.false_eq_true, if_false]
  rw [if_neg (by decide : ¬(("hi" : String) = "" ∨ (pyStrip "hi").length = 0))]
  rw [show round2 (check_file_size 0).2 = 0 from h2]
  rw [show pyStrip "hi" = "hi" from rfl]

/-- Witness for C10 at the `/transcribe` success above. -/
theorem success_payload_witness :
    ("hi" : String) ≠ "" ∧ noEdgeSpace ("hi" : String).toList = true :=
  success_payload_nonempty_stripped.1 (.ok 0) "f" (.ok "hi")
    ⟨"hi", 0, "f", true⟩ true transcribe_eval_concrete

/-! ### Claim theorems: client pipeline -/

/-- Unless the run reaches the full success branch (both backend calls
returned 200 after a healthy probe, a readable file and a passing size
check), every `(status, minutes)` pair of the run has empty minutes. -/
theorem allMinutesEmpty_unless_success (env : Env) :
    allMinutesEmpty (process_audio_to_minutes env) = true ∨
    (env.audioPath ≠ "" ∧ env.backendHealthy = true ∧
      (∃ n f, env.fileInfo = Except.ok (n, f) ∧ ¬ 25 < get_file_size_mb n) ∧
      (∃ t, call_transcribe_api env.transcribeOutcome = Except.ok t) ∧
      (∃ m, call_generate_minutes_api env.minutesOutcome = Except.ok m)) := by
  by_cases hp : env.audioPath = ""
  · left; simp [process_audio_to_minutes, hp, allMinutesEmpty]
  by_cases hb : env.backendHealthy = true
  case neg =>
    left
    rw [Bool.not_eq_true] at hb
    simp [process_audio_to_minutes, hp, hb, allMinutesEmpty]
  rcases hfi : env.fileInfo with e | ⟨n, f⟩
  · left; simp [process_audio_to_minutes, hp, hb, hfi, allMinutesEmpty]
  by_cases hs : 25 < get_file_size_mb n
  · left; simp [process_audio_to_minutes, hp, hb, hfi, hs, allMinutesEmpty]
  rcases hct : call_transcribe_api env.transcribeOutcome with e | t
  · left; simp [process_audio_to_minutes, hp, hb, hfi, hs, hct, allMinutesEmpty]
  rcases hcm : call_generate_minutes_api env.minutesOutcome with e | m
  · left; simp [process_audio_to_minutes, hp, hb, hfi, hs, hct, hcm, allMinutesEmpty]
  · right; exact ⟨hp, hb, ⟨n, f, rfl, hs⟩, ⟨t, rfl⟩, ⟨m, rfl⟩⟩


/-- C1 (amended): for an uploaded file whose (client-side, two-decimal
rounded) size exceeds 25 MB, the pipeline issues no transcription request
and no minutes request and every emitted pair carries empty minutes; the
health probe, however, is issued before the size check. -/
theorem oversize_rejected_before_transcription
    (env : Env) (n : ℕ) (f : String)
    (hfi : env.fileInfo = Except.ok (n, f)) (hsize : 25 < get_file_size_mb n) :
    NetCall.transcribeReq ∉ (process_audio_to_minutes env).calls ∧
    NetCall.minutesReq ∉ (process_audio_to_minutes env).calls ∧
    allMinutesEmpty (process_audio_to_minutes env) = true := by
  by_cases hp : env.audioPath = ""
  · refine ⟨?_, ?_, ?_⟩ <;> simp [process_audio_to_minutes, hp, allMinutesEmpty]
  by_cases hb : env.backendHealthy = true
  case neg =>
    rw [Bool.not_eq_true] at hb
    refine ⟨?_, ?_, ?_⟩ <;> simp [process_audio_to_minutes, hp, hb, allMinutesEmpty]
  refine ⟨?_, ?_, ?_⟩ <;>
    simp [process_audio_to_minutes, hp, hb, hfi, hsize, allMinutesEmpty]

/-- An oversize-file environment: a healthy backend, a 30 MiB (31457280
byte) file named "meeting.mp3". -/
def envOversize : Env :=
  { audioPath := "meeting.mp3"
    backendHealthy := true
    fileInfo := Except.ok (31457280, "meeting.mp3")
    transcribeOutcome := ApiOutcome.ok "t"
    minutesOutcome := ApiOutcome.ok "m" }

/-- A boundary environment: a file of 25 MB + 1 KB (26215424 bytes),
strictly above the 25*1024*1024-byte ceiling, healthy backend. -/
def envBoundary : Env :=
  { audioPath := "meeting.mp3"
    backendHealthy := true
    fileInfo := Except.ok (26215424, "meeting.mp3")
    transcribeOutcome := ApiOutcome.ok "t"
    minutesOutcome := ApiOutcome.ok "m" }

/-- C1 counterexample: for a 30 MiB file — strictly above the 25 MB
ceiling — the pipeline does issue the health-probe request before
rejecting; and for a 25 MB + 1 KB file — also above the ceiling — the
client's rounded check passes, so the transcription and minutes requests
are issued too. -/
theorem oversize_health_probe_sent :
    (25 * 1024 * 1024 < 31457280 ∧
      NetCall.healthProbe ∈ (process_audio_to_minutes envOversize).calls) ∧
    (25 * 1024 * 1024 < 26215424 ∧
      NetCall.transcribeReq ∈ (process_audio_to_minutes envBoundary).calls ∧
      NetCall.minutesReq ∈ (process_audio_to_minutes envBoundary).calls) := by
  constructor
  · refine ⟨by norm_num, ?_⟩
    have h : 25 < get_file_size_mb 31457280 := get_file_size_mb_30MB
    simp [process_audio_to_minutes, envOversize, h]
  · refine ⟨by norm_num, ?_⟩
    have h : ¬ 25 < get_file_size_mb 26215424 := by
      rw [get_file_size_mb_boundary]; norm_num
    simp [process_audio_to_minutes, envBoundary, h, call_transcribe_api,
      call_generate_minutes_api]

/-- Witness for amended C1 at the oversize environment. -/
theorem oversize_rejected_witness :
    NetCall.transcribeReq ∉ (process_audio_to_minutes envOversize).calls ∧
    NetCall.minutesReq ∉ (process_audio_to_minutes envOversize).calls ∧
    allMinutesEmpty (process_audio_to_minutes envOversize) = true :=
  oversize_rejected_before_transcription envOversize 31457280 "meeting.mp3" rfl
    get_file_size_mb_30MB

/-- C5: whenever the transcription call fails (connection refused,
timeout, non-200 response, or any other exception), the pipeline never
issues the minutes request, and its last emitted pair is the terminal
error status with empty minutes. -/
theorem transcription_failure_aborts_pipeline
    (env : Env) (n : ℕ) (f : String)
    (hp : env.audioPath ≠ "") (hb : env.backendHealthy = true)
    (hfi : env.fileInfo = Except.ok (n, f)) (hs : ¬ 25 < get_file_size_mb n)
    (hfail : env.transcribeOutcome = ApiOutcome.connErr ∨
      env.transcribeOutcome = ApiOutcome.timeout ∨
      (∃ s d, env.transcribeOutcome = ApiOutcome.httpErr s d) ∨
      (∃ m, env.transcribeOutcome = ApiOutcome.exc m)) :
    NetCall.minutesReq ∉ (process_audio_to_minutes env).calls ∧
    ∀ e, call_transcribe_api env.transcribeOutcome = Except.error e →
      (process_audio_to_minutes env).outputs.getLast? = some ("❌ " ++ e, "") := by
  have hct : ∃ e0, call_transcribe_api env.transcribeOutcome = Except.error e0 := by
    rcases hfail with h | h | ⟨s, d, h⟩ | ⟨m, h⟩ <;> rw [h] <;> exact ⟨_, rfl⟩
  obtain ⟨e0, hc⟩ := hct
  constructor
  · simp [process_audio_to_minutes, hp, hb, hfi, hs, hc]
  · intro e he
    rw [hc] at he
    injection he with he
    subst he
    simp [process_audio_to_minutes, hp, hb, hfi, hs, hc]

/-- A timing-out-transcription environment: healthy backend, 1 KiB file,
transcription request times out. -/
def envTimeout : Env :=
  { audioPath := "a.mp3"
    backendHealthy := true
    fileInfo := Except.ok (1024, "a.mp3")
    transcribeOutcome := ApiOutcome.timeout
    minutesOutcome := ApiOutcome.ok "m" }

/-- Witness for C5 at the timeout environment. -/
theorem transcription_failure_witness :
    NetCall.minutesReq ∉ (process_audio_to_minutes envTimeout).calls ∧
    (process_audio_to_minutes envTimeout).outputs.getLast? =
      some ("❌ " ++ "❌ Request timed out. The audio file might be too long.", "") :=
  ⟨(transcription_failure_aborts_pipeline envTimeout 1024 "a.mp3" (by decide) rfl rfl
      get_file_size_mb_1024 (Or.inr (Or.inl rfl))).1,
   (transcription_failure_aborts_pipeline envTimeout 1024 "a.mp3" (by decide) rfl rfl
      get_file_size_mb_1024 (Or.inr (Or.inl rfl))).2
     "❌ Request timed out. The audio file might be too long." rfl⟩

/-- C7: in each of the six error outcomes — no file, backend unreachable,
file-read error, oversize file, transcription failure, minutes failure —
every `(status, minutes)` pair the pipeline emits has an empty minutes
component, so the error is reported only through the status string. -/
theorem error_outcomes_empty_minutes :
    (∀ env : Env, env.audioPath = "" →
      allMinutesEmpty (process_audio_to_minutes env) = true) ∧
    (∀ env : Env, env.backendHealthy = false →
      allMinutesEmpty (process_audio_to_minutes env) = true) ∧
    (∀ (env : Env) (e : String), env.fileInfo = Except.error e →
      allMinutesEmpty (process_audio_to_minutes env) = true) ∧
    (∀ (env : Env) (n : ℕ) (f : String), env.fileInfo = Except.ok (n, f) →
      25 < get_file_size_mb n →
      allMinutesEmpty (process_audio_to_minutes env) = true) ∧
    (∀ (env : Env) (e : String),
      call_transcribe_api env.transcribeOutcome = Except.error e →
      allMinutesEmpty (process_audio_to_minutes env) = true) ∧
    (∀ (env : Env) (e : String),
      call_generate_minutes_api env.minutesOutcome = Except.error e →
      allMinutesEmpty (process_audio_to_minutes env) = true) := by
  refine ⟨?_, ?_, ?_, ?_, ?_, ?_⟩
  · intro env h
    rcases allMinutesEmpty_unless_success env with hok | ⟨hp, -, -, -, -⟩
    · exact hok
    · exact absurd h hp
  · intro env h
    rcases allMinutesEmpty_unless_success env with hok | ⟨-, hb, -, -, -⟩
    · exact hok
    · rw [h] at hb; exact absurd hb (by decide)
  · intro env e h
    rcases allMinutesEmpty_unless_success env with hok | ⟨-, -, ⟨n, f, hfi, -⟩, -, -⟩
    · exact hok
    · rw [h] at hfi; exact Except.noConfusion hfi
  · intro env n f h hs
    rcases allMinutesEmpty_unless_success env with hok | ⟨-, -, ⟨n', f', hfi, hs'⟩, -, -⟩
    · exact hok
    · rw [h] at hfi
      injection hfi with hfi
      injection hfi with hn hf
      exact absurd (hn ▸ hs) hs'
  · intro env e h
    rcases allMinutesEmpty_unless_success env with hok | ⟨-, -, -, ⟨t, hct⟩, -⟩
    · exact hok
    · rw [h] at hct; exact Except.noConfusion hct
  · intro env e h
    rcases allMinutesEmpty_unless_success env with hok | ⟨-, -, -, -, ⟨m, hcm⟩⟩
    · exact hok
    · rw [h] at hcm; exact Except.noConfusion hcm

/-- A backend-down environment. -/
def envBackendDown : Env :=
  { audioPath := "a.mp3"
    backendHealthy := false
    fileInfo := Except.ok (1024, "a.mp3")
    transcribeOutcome := ApiOutcome.ok "t"
    minutesOutcome := ApiOutcome.ok "m" }

/-- Witness for C7 at the backend-down environment. -/
theorem error_outcomes_empty_minutes_witness :
    allMinutesEmpty (process_audio_to_minutes envBackendDown) = true :=
  error_outcomes_empty_minutes.2.1 envBackendDown rfl

end MeetingMinutes
